import Mathlib

/-!
# Cursor accumulators of `CursorInputMapper.h`

A shallow embedding of the inline members of `CursorPositionAccumulator`
and `CursorMotionAccumulator` declared in
`services/inputflinger/reader/mapper/CursorInputMapper.h`, together with the
constant `CursorInputMapper::TRACKBALL_MOVEMENT_THRESHOLD`.

`int32_t` values are integers; every arithmetic operator of the header is
followed by an explicit reduction into the signed 32-bit range
(`wrap32`), so that overflow is visible in the model.
-/

namespace android

/-! ## 32-bit signed integers -/

/-- Smallest `int32_t` value. -/
def INT32_MIN : Int := -2147483648

/-- Largest `int32_t` value. -/
def INT32_MAX : Int := 2147483647

/-- Membership of the `int32_t` range, as a decidable test. -/
def inRange32 (x : Int) : Bool := decide (INT32_MIN ≤ x) && decide (x ≤ INT32_MAX)

/-- Two's-complement reduction of an integer to the `int32_t` range. -/
def wrap32 (x : Int) : Int := (x + 2147483648) % 4294967296 - 2147483648

/-- The `int32_t` operator `a + b`, wrapping modulo `2^32`. -/
def add32 (a b : Int) : Int := wrap32 (a + b)

/-- The `int32_t` operator `a - b`, wrapping modulo `2^32`. -/
def sub32 (a b : Int) : Int := wrap32 (a - b)

/-- Contextual conversion of an `int32_t` to `bool`: non-zero is true. -/
def toBool32 (x : Int) : Bool := x != 0

/-! ## `CursorPositionAccumulator` -/

/-- The private data members of `CursorPositionAccumulator`, in declaration order. -/
structure CursorPositionAccumulator where
  mX : Int
  mY : Int
  mDeltaX : Int
  mDeltaY : Int
  mMinAbsX : Int
  mMinAbsY : Int
  mMaxAbsX : Int
  mMaxAbsY : Int
  mHasAbsX : Bool
  mHasAbsY : Bool
  mMoved : Bool
  deriving DecidableEq, Repr

namespace CursorPositionAccumulator

/-- Every `int32_t` member holds a representable value. -/
def wellFormed (s : CursorPositionAccumulator) : Bool :=
  inRange32 s.mX && inRange32 s.mY && inRange32 s.mDeltaX && inRange32 s.mDeltaY &&
    inRange32 s.mMinAbsX && inRange32 s.mMinAbsY && inRange32 s.mMaxAbsX && inRange32 s.mMaxAbsY

/-- Source: `int32_t getX() const { return mX; }`. -/
def getX (s : CursorPositionAccumulator) : Int := s.mX

/-- Source: `int32_t getY() const { return mY; }`. -/
def getY (s : CursorPositionAccumulator) : Int := s.mY

/-- Source: `int32_t getDeltaX() const { return mDeltaX; }`. -/
def getDeltaX (s : CursorPositionAccumulator) : Int := s.mDeltaX

/-- Source: `int32_t getDeltaY() const { return mDeltaY; }`. -/
def getDeltaY (s : CursorPositionAccumulator) : Int := s.mDeltaY

/-- Source: `int32_t getSpanAbsX() const { return 1 + (mMaxAbsX - mMinAbsX); }`. -/
def getSpanAbsX (s : CursorPositionAccumulator) : Int :=
  add32 1 (sub32 s.mMaxAbsX s.mMinAbsX)

/-- Source: `int32_t getSpanAbsY() const { return 1 + (mMaxAbsY - mMinAbsY); }`. -/
def getSpanAbsY (s : CursorPositionAccumulator) : Int :=
  add32 1 (sub32 s.mMaxAbsY s.mMinAbsY)

/-- Source: `bool hasAbsX() const { return mHasAbsX; }`. -/
def hasAbsX (s : CursorPositionAccumulator) : Bool := s.mHasAbsX

/-- Source: `bool hasAbsY() const { return mHasAbsY; }`. -/
def hasAbsY (s : CursorPositionAccumulator) : Bool := s.mHasAbsY

/-- Source:
`bool isSupported() const { return hasAbsX() && mMaxAbsX && hasAbsY() && mMaxAbsY; }`. -/
def isSupported (s : CursorPositionAccumulator) : Bool :=
  hasAbsX s && toBool32 s.mMaxAbsX && hasAbsY s && toBool32 s.mMaxAbsY

/-- Source: `bool hasMoved() const { return isSupported() && mMoved; }`. -/
def hasMoved (s : CursorPositionAccumulator) : Bool := isSupported s && s.mMoved

end CursorPositionAccumulator

/-! ## `CursorMotionAccumulator` -/

/-- The private data members of `CursorMotionAccumulator`, in declaration order. -/
structure CursorMotionAccumulator where
  mRelX : Int
  mRelY : Int
  deriving DecidableEq, Repr

/-- Modelled from the spec: the axis tag of a relative-motion sample. The header only
forward-uses `RawEvent`; the spec speaks of "a relative-X or relative-Y axis sample". -/
inductive RelAxis where
  | relX
  | relY
  deriving DecidableEq, Repr

/-- Modelled from the spec: a raw relative-motion sample, "an axis/code identifier, and a
value" (the `RawEvent` type itself is declared outside this header; the timestamp plays no
part in the accumulation and is left out). -/
structure RawEvent where
  code : RelAxis
  value : Int
  deriving DecidableEq, Repr

namespace CursorMotionAccumulator

/-- Source: `int32_t getRelativeX() const { return mRelX; }`. -/
def getRelativeX (a : CursorMotionAccumulator) : Int := a.mRelX

/-- Source: `int32_t getRelativeY() const { return mRelY; }`. -/
def getRelativeY (a : CursorMotionAccumulator) : Int := a.mRelY

/-- Modelled from the spec: the body of `clearRelativeAxes` is missing (only its declaration
is in the header). The spec says clearing "zeroes both accumulators". -/
def clearRelativeAxes (_a : CursorMotionAccumulator) : CursorMotionAccumulator :=
  { mRelX := 0, mRelY := 0 }

/-- Modelled from the spec: the constructor body is missing. "Accumulator and Runtime state
are reset to their zero/identity form on explicit reset and on construction." -/
def init : CursorMotionAccumulator := { mRelX := 0, mRelY := 0 }

/-- Modelled from the spec: the body of `reset` is missing. "`reset` zeroes both accumulators
immediately." -/
def reset (a : CursorMotionAccumulator) : CursorMotionAccumulator := clearRelativeAxes a

/-- Modelled from the spec: the body of `process` is missing. "`process(sample)` adds a
relative-X or relative-Y axis sample to the pending accumulation (no clamping, no
transform)." The members are `int32_t`, so the addition is the 32-bit one. -/
def process (a : CursorMotionAccumulator) (rawEvent : RawEvent) : CursorMotionAccumulator :=
  match rawEvent.code with
  | RelAxis.relX => { a with mRelX := add32 a.mRelX rawEvent.value }
  | RelAxis.relY => { a with mRelY := add32 a.mRelY rawEvent.value }

/-- Modelled from the spec: the body of `finishSync` is missing. "`finishSync()` is a no-op
marker that downstream readers call after consuming the frame; it does not itself clear." -/
def finishSync (a : CursorMotionAccumulator) : CursorMotionAccumulator := a

/-- Modelled from the spec: feeding the samples of one frame, in arrival order, to `process`. -/
def processAll (a : CursorMotionAccumulator) (evs : List RawEvent) : CursorMotionAccumulator :=
  evs.foldl process a

/-- Modelled from the spec: what happens to the accumulator at a frame boundary. The
synthesizer reads the pending deltas, calls the `finishSync` marker, and the accumulator is
"cleared to zero exactly once per completed sync frame, after being read by the
synthesizer". The result is the pair of deltas read and the drained accumulator. -/
def drainFrame (a : CursorMotionAccumulator) : (Int × Int) × CursorMotionAccumulator :=
  ((getRelativeX a, getRelativeY a), clearRelativeAxes (finishSync a))

end CursorMotionAccumulator

/-- The exact (unbounded) sum of the values of the samples of one axis. -/
def sampleSum (axis : RelAxis) (evs : List RawEvent) : Int :=
  ((evs.filter (fun e => decide (e.code = axis))).map (fun e => e.value)).sum

/-! ## `CursorInputMapper` constants -/

namespace CursorInputMapper

/-- Source: `static const int32_t TRACKBALL_MOVEMENT_THRESHOLD = 6;`. -/
def TRACKBALL_MOVEMENT_THRESHOLD : Int := 6

end CursorInputMapper

/-! ## Concrete accumulator states used as test inputs -/

/-- Both axes present, X range reported back to front (`min = 10`, `max = 5`). -/
def reversedRangeState : CursorPositionAccumulator :=
  { mX := 0, mY := 0, mDeltaX := 0, mDeltaY := 0,
    mMinAbsX := 10, mMinAbsY := 0, mMaxAbsX := 5, mMaxAbsY := 1079,
    mHasAbsX := true, mHasAbsY := true, mMoved := false }

/-- Both axes present, X range `[-100, 0]` ending at zero, Y range `[0, 1079]`. -/
def zeroMaxState : CursorPositionAccumulator :=
  { mX := 0, mY := 0, mDeltaX := 0, mDeltaY := 0,
    mMinAbsX := -100, mMinAbsY := 0, mMaxAbsX := 0, mMaxAbsY := 1079,
    mHasAbsX := true, mHasAbsY := true, mMoved := false }

/-- A tablet-like device: both axes present, ranges `[0, 1919]` and `[0, 1079]`, moved. -/
def tabletState : CursorPositionAccumulator :=
  { mX := 960, mY := 540, mDeltaX := 3, mDeltaY := -2,
    mMinAbsX := 0, mMinAbsY := 0, mMaxAbsX := 1919, mMaxAbsY := 1079,
    mHasAbsX := true, mHasAbsY := true, mMoved := true }

/-- The tablet-like state with the Y axis capability missing. -/
def noAbsYState : CursorPositionAccumulator :=
  { tabletState with mHasAbsY := false }

/-- A device whose axes each report the single value `7`. -/
def singleValueState : CursorPositionAccumulator :=
  { tabletState with mMinAbsX := 7, mMaxAbsX := 7, mMinAbsY := 7, mMaxAbsY := 7 }

/-- The tablet-like state with other minima, position, deltas and moved flag. -/
def shiftedTabletState : CursorPositionAccumulator :=
  { mX := -1, mY := 12, mDeltaX := 0, mDeltaY := 0,
    mMinAbsX := -40, mMinAbsY := 5000, mMaxAbsX := 1919, mMaxAbsY := 1079,
    mHasAbsX := true, mHasAbsY := true, mMoved := false }

/-- One frame of relative samples: `dx = 2, dy = -1, dx = 2, dx = 3`. -/
def sampleFrame : List RawEvent :=
  [⟨RelAxis.relX, 2⟩, ⟨RelAxis.relY, -1⟩, ⟨RelAxis.relX, 2⟩, ⟨RelAxis.relX, 3⟩]

/-! ## Arithmetic helpers -/

theorem inRange32_iff (x : Int) :
    inRange32 x = true ↔ -2147483648 ≤ x ∧ x ≤ 2147483647 := by
  simp [inRange32, INT32_MIN, INT32_MAX]

theorem wrap32_of_inRange (x : Int) (h : inRange32 x = true) : wrap32 x = x := by
  rw [inRange32_iff] at h
  unfold wrap32
  omega

theorem wrap32_inRange (x : Int) : inRange32 (wrap32 x) = true := by
  rw [inRange32_iff]
  unfold wrap32
  omega

theorem wrap32_add_wrap32 (a d : Int) : wrap32 (a + wrap32 d) = wrap32 (a + d) := by
  unfold wrap32
  omega

open CursorPositionAccumulator CursorMotionAccumulator

theorem isSupported_eq_true_iff (s : CursorPositionAccumulator) :
    isSupported s = true ↔
      s.mHasAbsX = true ∧ s.mHasAbsY = true ∧ s.mMaxAbsX ≠ 0 ∧ s.mMaxAbsY ≠ 0 := by
  simp [isSupported, hasAbsX, hasAbsY, toBool32]
  tauto


theorem isSupported_eq_false_iff (s : CursorPositionAccumulator) :
    isSupported s = false ↔
      s.mHasAbsX = false ∨ s.mHasAbsY = false ∨ s.mMaxAbsX = 0 ∨ s.mMaxAbsY = 0 := by
  cases hs : isSupported s
  · have h := (isSupported_eq_true_iff s).not.mp (by simp [hs])
    simp only [true_iff]
    by_contra hc
    push_neg at hc
    exact h ⟨by simpa using hc.1, by simpa using hc.2.1, hc.2.2.1, hc.2.2.2⟩
  · have h := (isSupported_eq_true_iff s).mp hs
    simp [h.1, h.2.1, h.2.2.1, h.2.2.2]

theorem add32_one_sub32 (hi lo : Int) : add32 1 (sub32 hi lo) = wrap32 (1 + (hi - lo)) := by
  unfold add32 sub32
  exact wrap32_add_wrap32 1 (hi - lo)

theorem span32_exact (hi lo : Int) (hle : lo ≤ hi) (hd : hi - lo ≤ 2147483646) :
    inRange32 (hi - lo) = true ∧ inRange32 (1 + (hi - lo)) = true ∧
      add32 1 (sub32 hi lo) = 1 + (hi - lo) := by
  have h1 : inRange32 (hi - lo) = true := by rw [inRange32_iff]; omega
  have h2 : inRange32 (1 + (hi - lo)) = true := by rw [inRange32_iff]; omega
  exact ⟨h1, h2, by rw [add32_one_sub32]; exact wrap32_of_inRange _ h2⟩

theorem processAll_cons (a : CursorMotionAccumulator) (e : RawEvent) (es : List RawEvent) :
    processAll a (e :: es) = processAll (process a e) es := rfl

theorem processAll_wrap (evs : List RawEvent) :
    ∀ a : CursorMotionAccumulator,
      wrap32 (getRelativeX (processAll a evs)) = wrap32 (a.mRelX + sampleSum RelAxis.relX evs) ∧
      wrap32 (getRelativeY (processAll a evs)) = wrap32 (a.mRelY + sampleSum RelAxis.relY evs) := by
  induction evs with
  | nil => intro a; simp [processAll, sampleSum, getRelativeX, getRelativeY]
  | cons e es ih =>
    intro a
    rw [processAll_cons]
    obtain ⟨hx, hy⟩ := ih (process a e)
    rw [hx, hy]
    rcases e with ⟨c, v⟩
    cases c
    · simp only [process, add32, sampleSum, List.filter_cons, decide_True, decide_False,
        List.map_cons, List.sum_cons, reduceCtorEq, if_true, if_false]
      constructor
      · unfold wrap32; omega
      · trivial
    · simp only [process, add32, sampleSum, List.filter_cons, decide_True, decide_False,
        List.map_cons, List.sum_cons, reduceCtorEq, if_true, if_false]
      constructor
      · trivial
      · unfold wrap32; omega

theorem processAll_inRange (evs : List RawEvent) :
    ∀ a : CursorMotionAccumulator, inRange32 a.mRelX = true → inRange32 a.mRelY = true →
      inRange32 (getRelativeX (processAll a evs)) = true ∧
      inRange32 (getRelativeY (processAll a evs)) = true := by
  induction evs with
  | nil => intro a hx hy; exact ⟨hx, hy⟩
  | cons e es ih =>
    intro a hx hy
    rw [processAll_cons]
    rcases e with ⟨c, v⟩
    cases c
    · exact ih _ (wrap32_inRange _) hy
    · exact ih _ hx (wrap32_inRange _)

theorem processAll_init (evs : List RawEvent) :
    getRelativeX (processAll init evs) = wrap32 (sampleSum RelAxis.relX evs) ∧
    getRelativeY (processAll init evs) = wrap32 (sampleSum RelAxis.relY evs) := by
  obtain ⟨hx, hy⟩ := processAll_wrap evs init
  obtain ⟨rx, ry⟩ := processAll_inRange evs init (by decide) (by decide)
  rw [wrap32_of_inRange _ rx] at hx
  rw [wrap32_of_inRange _ ry] at hy
  simp only [init, zero_add] at hx hy
  exact ⟨hx, hy⟩

/-! ## Position accumulator: `isSupported`, `hasMoved` -/

/-- Claim C1, counterexample: with both axes present, X range `min = 10`, `max = 5`, the
derived X span is `1 + (5 - 10) = -4`, which is non-positive, and yet `isSupported()` returns
true, because it only tests that the two maxima are non-zero. -/
theorem isSupported_nonpositive_span_counterexample :
    wellFormed reversedRangeState = true ∧
      getSpanAbsX reversedRangeState = -4 ∧
      (getSpanAbsX reversedRangeState ≤ 0 ∨ getSpanAbsY reversedRangeState ≤ 0) ∧
      isSupported reversedRangeState = true := by
  decide

/-- Claim C1, amended: for every state, if the maximum of either axis is zero
(`mMaxAbsX = 0` or `mMaxAbsY = 0`) then `isSupported()` returns false. -/
theorem isSupported_false_of_zero_max (s : CursorPositionAccumulator)
    (h : s.mMaxAbsX = 0 ∨ s.mMaxAbsY = 0) : isSupported s = false := by
  rw [isSupported_eq_false_iff]
  rcases h with h | h
  · exact Or.inr (Or.inr (Or.inl h))
  · exact Or.inr (Or.inr (Or.inr h))

/-- Claim C1, witness: the state with X range `[-100, 0]` has a zero X maximum and is
unsupported. -/
theorem isSupported_false_of_zero_max_witness :
    (zeroMaxState.mMaxAbsX = 0 ∨ zeroMaxState.mMaxAbsY = 0) ∧
      isSupported zeroMaxState = false :=
  ⟨by decide, isSupported_false_of_zero_max zeroMaxState (by decide)⟩

/-- Claim C2, counterexample: with both axes present, X range `[-100, 0]` and Y range
`[0, 1079]`, both derived spans are strictly positive (101 and 1080), and yet
`isSupported()` returns false, because the X maximum is zero. -/
theorem isSupported_positive_span_counterexample :
    wellFormed zeroMaxState = true ∧
      hasAbsX zeroMaxState = true ∧ hasAbsY zeroMaxState = true ∧
      getSpanAbsX zeroMaxState = 101 ∧ getSpanAbsY zeroMaxState = 1080 ∧
      0 < getSpanAbsX zeroMaxState ∧ 0 < getSpanAbsY zeroMaxState ∧
      isSupported zeroMaxState = false := by
  decide

/-- Claim C2, amended: for every state in which both axes are present and both maxima
`mMaxAbsX`, `mMaxAbsY` are non-zero, `isSupported()` returns true. -/
theorem isSupported_true_of_axes_and_max (s : CursorPositionAccumulator)
    (hx : hasAbsX s = true) (hy : hasAbsY s = true)
    (hmx : s.mMaxAbsX ≠ 0) (hmy : s.mMaxAbsY ≠ 0) : isSupported s = true :=
  (isSupported_eq_true_iff s).mpr ⟨hx, hy, hmx, hmy⟩

/-- Claim C2, witness: the tablet-like state has both axes and non-zero maxima, and is
supported. -/
theorem isSupported_true_of_axes_and_max_witness :
    hasAbsX tabletState = true ∧ hasAbsY tabletState = true ∧
      tabletState.mMaxAbsX ≠ 0 ∧ tabletState.mMaxAbsY ≠ 0 ∧ isSupported tabletState = true :=
  ⟨by decide, by decide, by decide, by decide,
    isSupported_true_of_axes_and_max tabletState (by decide) (by decide) (by decide) (by decide)⟩

/-- Claim C3: for every state in which either axis is missing (`mHasAbsX` false or `mHasAbsY`
false), `isSupported()` returns false, whatever the other members hold. -/
theorem isSupported_false_of_missing_axis (s : CursorPositionAccumulator)
    (h : s.mHasAbsX = false ∨ s.mHasAbsY = false) : isSupported s = false := by
  rw [isSupported_eq_false_iff]
  rcases h with h | h
  · exact Or.inl h
  · exact Or.inr (Or.inl h)

/-- Claim C3, witness: a state with good ranges on both axes but no Y capability. -/
theorem isSupported_false_of_missing_axis_witness :
    (noAbsYState.mHasAbsX = false ∨ noAbsYState.mHasAbsY = false) ∧
      isSupported noAbsYState = false :=
  ⟨by decide, isSupported_false_of_missing_axis noAbsYState (by decide)⟩

/-- Claim C4: for every state, if `isSupported()` returns false then `hasMoved()` returns
false, whatever the moved flag holds. -/
theorem hasMoved_false_of_not_supported (s : CursorPositionAccumulator)
    (h : isSupported s = false) : hasMoved s = false := by
  simp [hasMoved, h]

/-- Claim C4, witness: the state without Y capability has its moved flag set and still
reports no movement. -/
theorem hasMoved_false_of_not_supported_witness :
    noAbsYState.mMoved = true ∧ isSupported noAbsYState = false ∧
      hasMoved noAbsYState = false :=
  ⟨by decide, by decide, hasMoved_false_of_not_supported noAbsYState (by decide)⟩

/-- Claim C8: for every state, `isSupported()` is true exactly when `mHasAbsX` and `mHasAbsY`
are true and `mMaxAbsX` and `mMaxAbsY` are non-zero; hence any state agreeing with it on
these four members gives the same `isSupported()` result. -/
theorem isSupported_iff_flags_and_max (s : CursorPositionAccumulator) :
    (isSupported s = true ↔
        s.mHasAbsX = true ∧ s.mHasAbsY = true ∧ s.mMaxAbsX ≠ 0 ∧ s.mMaxAbsY ≠ 0) ∧
      ∀ t : CursorPositionAccumulator,
        t.mHasAbsX = s.mHasAbsX → t.mHasAbsY = s.mHasAbsY →
        t.mMaxAbsX = s.mMaxAbsX → t.mMaxAbsY = s.mMaxAbsY →
        isSupported t = isSupported s := by
  refine ⟨isSupported_eq_true_iff s, ?_⟩
  intro t h1 h2 h3 h4
  simp [isSupported, hasAbsX, hasAbsY, h1, h2, h3, h4]

/-- Claim C8, witness: two tablet-like states that differ in minima, position, deltas and
moved flag are both supported. -/
theorem isSupported_iff_flags_and_max_witness :
    shiftedTabletState ≠ tabletState ∧
      isSupported shiftedTabletState = isSupported tabletState ∧
      isSupported tabletState = true :=
  ⟨by decide,
    (isSupported_iff_flags_and_max tabletState).2 shiftedTabletState rfl rfl rfl rfl,
    (isSupported_iff_flags_and_max tabletState).1.mpr (by decide)⟩

/-- Claim C10: for every state in which `isSupported()` is true, `hasMoved()` returns the
moved flag `mMoved`; and `hasMoved()` is true exactly when `isSupported()` is true and
`mMoved` is true. -/
theorem hasMoved_eq_moved_flag (s : CursorPositionAccumulator) :
    (isSupported s = true → hasMoved s = s.mMoved) ∧
      (hasMoved s = true ↔ isSupported s = true ∧ s.mMoved = true) := by
  constructor
  · intro h
    simp [hasMoved, h]
  · simp [hasMoved]

/-- Claim C10, witness: on supported states `hasMoved()` follows the flag, set or clear. -/
theorem hasMoved_eq_moved_flag_witness :
    isSupported tabletState = true ∧ hasMoved tabletState = true ∧
      isSupported shiftedTabletState = true ∧ hasMoved shiftedTabletState = false :=
  ⟨by decide, (hasMoved_eq_moved_flag tabletState).1 (by decide),
    by decide, (hasMoved_eq_moved_flag shiftedTabletState).1 (by decide)⟩

/-! ## Position accumulator: spans -/

/-- Claim C5: for every state the span is inclusive: `getSpanAbsX()` returns the `int32_t`
value of `1 + (mMaxAbsX - mMinAbsX)` and `getSpanAbsY()` that of `1 + (mMaxAbsY - mMinAbsY)`,
which is the integer `1 + (max - min)` itself whenever the subtraction and the addition stay
in the `int32_t` range; a single-value range (`max = min`) has span 1. -/
theorem getSpanAbs_inclusive (s : CursorPositionAccumulator) :
    getSpanAbsX s = wrap32 (1 + (s.mMaxAbsX - s.mMinAbsX)) ∧
      getSpanAbsY s = wrap32 (1 + (s.mMaxAbsY - s.mMinAbsY)) ∧
      (inRange32 (s.mMaxAbsX - s.mMinAbsX) = true →
        inRange32 (1 + (s.mMaxAbsX - s.mMinAbsX)) = true →
        getSpanAbsX s = 1 + (s.mMaxAbsX - s.mMinAbsX)) ∧
      (inRange32 (s.mMaxAbsY - s.mMinAbsY) = true →
        inRange32 (1 + (s.mMaxAbsY - s.mMinAbsY)) = true →
        getSpanAbsY s = 1 + (s.mMaxAbsY - s.mMinAbsY)) ∧
      (s.mMaxAbsX = s.mMinAbsX → getSpanAbsX s = 1) ∧
      (s.mMaxAbsY = s.mMinAbsY → getSpanAbsY s = 1) := by
  have hX : getSpanAbsX s = wrap32 (1 + (s.mMaxAbsX - s.mMinAbsX)) := add32_one_sub32 _ _
  have hY : getSpanAbsY s = wrap32 (1 + (s.mMaxAbsY - s.mMinAbsY)) := add32_one_sub32 _ _
  refine ⟨hX, hY, ?_, ?_, ?_, ?_⟩
  · intro _ h
    rw [hX, wrap32_of_inRange _ h]
  · intro _ h
    rw [hY, wrap32_of_inRange _ h]
  · intro h
    rw [hX, h, sub_self]
    decide
  · intro h
    rw [hY, h, sub_self]
    decide

/-- Claim C5, witness: the ranges `[0, 1919]` and `[0, 1079]` have spans 1920 and 1080, and
the single-value ranges `[7, 7]` have span 1. -/
theorem getSpanAbs_inclusive_witness :
    getSpanAbsX tabletState = 1 + (1919 - 0) ∧ getSpanAbsY tabletState = 1 + (1079 - 0) ∧
      getSpanAbsX singleValueState = 1 ∧ getSpanAbsY singleValueState = 1 :=
  ⟨(getSpanAbs_inclusive tabletState).2.2.1 (by decide) (by decide),
    (getSpanAbs_inclusive tabletState).2.2.2.1 (by decide) (by decide),
    (getSpanAbs_inclusive singleValueState).2.2.2.2.1 rfl,
    (getSpanAbs_inclusive singleValueState).2.2.2.2.2 rfl⟩

/-- Claim C9: in the wrap-around model of `int32_t`, for every pair of `int32_t` axis bounds
`lo ≤ hi` with `hi - lo ≤ 2^31 - 2`, `getSpanAbsX()` of a state with these X bounds (and
likewise `getSpanAbsY()` with these Y bounds) does not overflow (the difference and the
incremented difference are both in range), is strictly positive, and equals the number of
integers in the closed range `[lo, hi]`. -/
theorem getSpanAbs_no_overflow (lo hi : Int)
    (_hlo : inRange32 lo = true) (_hhi : inRange32 hi = true)
    (hle : lo ≤ hi) (hd : hi - lo ≤ 2147483646) (s : CursorPositionAccumulator) :
    (s.mMinAbsX = lo → s.mMaxAbsX = hi →
        sub32 hi lo = hi - lo ∧ inRange32 (hi - lo) = true ∧
        inRange32 (1 + (hi - lo)) = true ∧ getSpanAbsX s = 1 + (hi - lo) ∧
        0 < getSpanAbsX s ∧ getSpanAbsX s = ((Finset.Icc lo hi).card : Int)) ∧
      (s.mMinAbsY = lo → s.mMaxAbsY = hi →
        sub32 hi lo = hi - lo ∧ inRange32 (hi - lo) = true ∧
        inRange32 (1 + (hi - lo)) = true ∧ getSpanAbsY s = 1 + (hi - lo) ∧
        0 < getSpanAbsY s ∧ getSpanAbsY s = ((Finset.Icc lo hi).card : Int)) := by
  obtain ⟨h1, h2, h3⟩ := span32_exact hi lo hle hd
  have hcard : ((Finset.Icc lo hi).card : Int) = 1 + (hi - lo) := by
    rw [Int.card_Icc, Int.toNat_of_nonneg (by omega)]
    ring
  have hsub : sub32 hi lo = hi - lo := wrap32_of_inRange _ h1
  constructor
  · intro hmin hmax
    have hs : getSpanAbsX s = 1 + (hi - lo) := by
      unfold getSpanAbsX
      rw [hmin, hmax, h3]
    exact ⟨hsub, h1, h2, hs, by rw [hs]; omega, by rw [hs, hcard]⟩
  · intro hmin hmax
    have hs : getSpanAbsY s = 1 + (hi - lo) := by
      unfold getSpanAbsY
      rw [hmin, hmax, h3]
    exact ⟨hsub, h1, h2, hs, by rw [hs]; omega, by rw [hs, hcard]⟩

/-- Claim C9, witness: the widest admissible range, `[-1, 2^31 - 3]`, has span `2^31 - 1`,
the largest `int32_t`; and the Y range `[0, 1079]` has span 1080. -/
theorem getSpanAbs_no_overflow_witness :
    getSpanAbsX { tabletState with mMinAbsX := -1, mMaxAbsX := 2147483645 } = 2147483647 ∧
      getSpanAbsY tabletState = 1080 :=
  ⟨((getSpanAbs_no_overflow (-1) 2147483645 (by decide) (by decide) (by decide) (by decide)
      { tabletState with mMinAbsX := -1, mMaxAbsX := 2147483645 }).1 rfl rfl).2.2.2.1,
    ((getSpanAbs_no_overflow 0 1079 (by decide) (by decide) (by decide) (by decide)
      tabletState).2 rfl rfl).2.2.2.1⟩

/-! ## Motion accumulator -/

/-- Claim C6: for every sequence of relative-X / relative-Y samples passed to `process`
starting from a cleared accumulator and followed by one frame boundary, the values of
`getRelativeX()` and `getRelativeY()` read at the boundary are the 32-bit sums of the X and
of the Y sample values, which are the exact sums whenever these are `int32_t` values, and
both getters return zero immediately after the frame is drained. -/
theorem motion_frame_exact_sum (a0 : CursorMotionAccumulator) (evs : List RawEvent) :
    (drainFrame (processAll (clearRelativeAxes a0) evs)).1 =
        (wrap32 (sampleSum RelAxis.relX evs), wrap32 (sampleSum RelAxis.relY evs)) ∧
      (inRange32 (sampleSum RelAxis.relX evs) = true →
        (drainFrame (processAll (clearRelativeAxes a0) evs)).1.1 =
          sampleSum RelAxis.relX evs) ∧
      (inRange32 (sampleSum RelAxis.relY evs) = true →
        (drainFrame (processAll (clearRelativeAxes a0) evs)).1.2 =
          sampleSum RelAxis.relY evs) ∧
      getRelativeX (drainFrame (processAll (clearRelativeAxes a0) evs)).2 = 0 ∧
      getRelativeY (drainFrame (processAll (clearRelativeAxes a0) evs)).2 = 0 := by
  obtain ⟨hx, hy⟩ := processAll_init evs
  have hc : clearRelativeAxes a0 = init := rfl
  rw [hc]
  refine ⟨?_, ?_, ?_, rfl, rfl⟩
  · simp only [drainFrame, hx, hy]
  · intro h
    simp only [drainFrame, hx, wrap32_of_inRange _ h]
  · intro h
    simp only [drainFrame, hy, wrap32_of_inRange _ h]

/-- Claim C6, witness: the frame `dx = 2, dy = -1, dx = 2, dx = 3` fed to an accumulator that
held stale values reads `(7, -1)` at the boundary and `(0, 0)` after the drain. -/
theorem motion_frame_exact_sum_witness :
    (drainFrame (processAll (clearRelativeAxes ⟨40, 2⟩) sampleFrame)).1.1 = 2 + 2 + 3 ∧
      (drainFrame (processAll (clearRelativeAxes ⟨40, 2⟩) sampleFrame)).1.2 = -1 ∧
      getRelativeX (drainFrame (processAll (clearRelativeAxes ⟨40, 2⟩) sampleFrame)).2 = 0 ∧
      getRelativeY (drainFrame (processAll (clearRelativeAxes ⟨40, 2⟩) sampleFrame)).2 = 0 :=
  ⟨(motion_frame_exact_sum ⟨40, 2⟩ sampleFrame).2.1 (by decide),
    (motion_frame_exact_sum ⟨40, 2⟩ sampleFrame).2.2.1 (by decide),
    (motion_frame_exact_sum ⟨40, 2⟩ sampleFrame).2.2.2.1,
    (motion_frame_exact_sum ⟨40, 2⟩ sampleFrame).2.2.2.2⟩

/-! ## Trackball threshold -/

/-- Claim C7: the movement threshold of trackball (NAVIGATION mode) devices,
`TRACKBALL_MOVEMENT_THRESHOLD`, is exactly 6, so an accumulated motion of 7 (such as
`2 + 2 + 3`) holds exactly one whole threshold with a remainder of 1. -/
theorem trackball_threshold_is_six :
    CursorInputMapper.TRACKBALL_MOVEMENT_THRESHOLD = 6 ∧
      (2 + 2 + 3 : Int) / CursorInputMapper.TRACKBALL_MOVEMENT_THRESHOLD = 1 ∧
      (2 + 2 + 3 : Int) % CursorInputMapper.TRACKBALL_MOVEMENT_THRESHOLD = 1 ∧
      (7 : Int) = 1 * CursorInputMapper.TRACKBALL_MOVEMENT_THRESHOLD + 1 ∧
      (1 : Int) < CursorInputMapper.TRACKBALL_MOVEMENT_THRESHOLD := by
  decide

end android
